import Mathlib

/-!
Shallow embedding of the policy engine core of `senlin/policies/base.py`
(class `Policy`), together with spec-modelled stubs for the external
collaborators that the excerpt consumes but whose code is not part of the
excerpt (the entity store `senlin.objects.policy`, the credential store
`senlin.objects.credential`, and `senlin.common.schema.get_spec_version`).

Python values that may be `None` are modelled as `Option`; Python dicts are
modelled as association lists with first-match lookup (dict keys are unique,
so first-match lookup coincides with dict lookup); raised exceptions are
modelled with `Except`.
-/

namespace Senlin

/-- The `PROFILE_TYPE` class attribute: the base class sets the *string*
`'ANY'` (base.py line 35) while concrete kinds set a *list* of profile type
names.  Both shapes flow into `attach`, so the model keeps both. -/
inductive ProfileTypeDecl where
  | str : String → ProfileTypeDecl
  | list : List String → ProfileTypeDecl
deriving DecidableEq, Repr

/-- Python's `needle in hay` for two strings (as char lists): substring
containment, with the empty needle contained in everything. -/
def pyStrIn (needle : List Char) : List Char → Bool
  | [] => needle.isEmpty
  | c :: rest => needle.isPrefixOf (c :: rest) || pyStrIn needle rest

/-- Python's `x in self.PROFILE_TYPE` as it behaves on the two shapes the
attribute takes in the code base: substring test on a string, element
membership on a list. -/
def pyIn (x : String) : ProfileTypeDecl → Bool
  | .str s => pyStrIn x.data s.data
  | .list l => l.contains x

/-- The cluster fields read by `attach` (via `cluster.rt['profile'].type`)
and `_build_conn_params` (`cluster.user`, `cluster.project`). -/
structure Cluster where
  user : String
  project : String
  profile_type : String
deriving DecidableEq, Repr

/-- Embedding of `Policy.attach` (base.py lines 225-241): succeeds unconditionally when
`PROFILE_TYPE == ['ANY']`, otherwise soft-fails with a message when the
cluster's profile type is not in `PROFILE_TYPE`. -/
def attach (pt : ProfileTypeDecl) (cluster : Cluster) : Bool × Option String :=
  if pt = ProfileTypeDecl.list ["ANY"] then
    (true, none)
  else if pyIn cluster.profile_type pt = false then
    (false, some ("Policy not applicable on profile type: " ++ cluster.profile_type))
  else
    (true, none)

/-- Embedding of `Policy.detach` (base.py lines 243-245): always succeeds. -/
def detach (_cluster : Cluster) : Bool × Option String :=
  (true, none)

/-- Embedding of `Policy.need_check` (base.py lines 247-254).  `TARGET` is `none` when the
kind leaves the attribute undefined or sets it to `None` (both make
`getattr(self, 'TARGET', None) is None` true); otherwise it is the declared
list of `(lifecycle-stage, action-name)` pairs. -/
def need_check (TARGET : Option (List (String × String))) (target : String)
    (actionName : String) : Bool :=
  match TARGET with
  | none => true
  | some tgts => if (target, actionName) ∈ tgts then true else false

/-- One entry of the opaque policy-data envelope: the inner dict
`{'version': ..., 'data': ...}`.  Either key may be absent (`none`). -/
structure DataEntry (V : Type) where
  version : Option String
  data : Option V
deriving DecidableEq, Repr

/-- The opaque policy-data envelope: a dict from concrete-kind class name to
its private entry. -/
abbrev PolicyData (V : Type) := List (String × DataEntry V)

/-- Embedding of `Policy._build_policy_data` (base.py lines 204-213): wraps the payload
under the concrete kind's short class name with a `version` tag. -/
def build_policy_data (clsname VERSION : String) {V : Type} (d : V) : PolicyData V :=
  [(clsname, { version := some VERSION, data := some d })]

/-- Embedding of `Policy._extract_policy_data` (base.py lines 215-223): returns `none`
when the kind's key is absent, or when the entry's `version` is absent or
differs from the kind's current `VERSION`; otherwise `data.get('data', None)`. -/
def extract_policy_data (clsname VERSION : String) {V : Type}
    (policy_data : PolicyData V) : Option V :=
  match List.lookup clsname policy_data with
  | none => none
  | some entry =>
    match entry.version with
    | none => none
    | some v => if v ≠ VERSION then none else entry.data

/-- Modelled from the spec: `schema.get_spec_version` (module
`senlin.common.schema`, not part of the excerpt) extracts the `type` and
`version` fields from the declaration.  The declaration is modelled as a
structure exposing exactly the fields the excerpted code reads. -/
structure SpecDecl where
  type : String
  version : String
deriving DecidableEq, Repr

/-- Modelled from the spec: extraction of `(type, version)` from a
declaration, as consumed by `Policy.__init__`. -/
def get_spec_version (s : SpecDecl) : String × String :=
  (s.type, s.version)

/-- The keyword arguments consulted by `Policy.__init__` with
`kwargs.get(..)`.  `none` models "key absent or value `None`" (the two are
indistinguishable through `kwargs.get`). -/
structure InitKwargs (D : Type) where
  id : Option String := none
  type : Option String := none
  user : Option String := none
  project : Option String := none
  domain : Option String := none
  data : Option D := none
  created_at : Option Nat := none
  updated_at : Option Nat := none

/-- The instance fields set by `Policy.__init__` (base.py lines 82-109).
The opaque `data` mapping is an abstract type `D`; timestamps are `Nat`. -/
structure PolicyInst (D : Type) where
  name : String
  spec : SpecDecl
  id : Option String
  type : String
  user : Option String
  project : Option String
  domain : Option String
  data : D
  created_at : Option Nat
  updated_at : Option Nat
  singleton : Bool

/-- Embedding of `Policy.__init__` (base.py lines 82-109): computes the composite
`"<type>-<version>"` key from the spec, then populates fields from keyword
overrides or defaults.  `emptyData` stands for the Python default `{}` of
`kwargs.get('data', {})`. -/
def policy_init {D : Type} (emptyData : D) (name : String) (spec : SpecDecl)
    (kw : InitKwargs D) : PolicyInst D :=
  let tv := get_spec_version spec
  let type_str := tv.1 ++ "-" ++ tv.2
  { name := name
    spec := spec
    id := kw.id
    type := kw.type.getD type_str
    user := kw.user
    project := kw.project
    domain := kw.domain
    data := kw.data.getD emptyData
    created_at := kw.created_at
    updated_at := kw.updated_at
    singleton := true }

/-- The flat record shape held by the entity store for a policy: the values
written by `store` plus the store-assigned timestamps.  Records are keyed by
`id` in the store state, so `id` is not repeated here. -/
structure PValues (D : Type) where
  name : String
  type : String
  user : Option String
  project : Option String
  domain : Option String
  spec : SpecDecl
  data : D
  created_at : Option Nat := none
  updated_at : Option Nat := none

/-- Modelled from the spec: the external entity store
(`senlin.objects.policy.Policy`, not part of the excerpt) holding flat
policy records keyed by their assigned `id`, with a counter generating
fresh identifiers. -/
structure DBState (D : Type) where
  nextId : Nat
  rows : List (String × PValues D)

/-- Modelled from the spec: `po.Policy.create(context, values) -> record`
persists a new record and assigns it a fresh, non-empty identifier.  The
record is returned as the pair of the assigned id and the stored values. -/
def db_policy_create {D : Type} (db : DBState D) (v : PValues D) :
    (String × PValues D) × DBState D :=
  let newId := "policy-" ++ toString db.nextId
  ((newId, v), { nextId := db.nextId + 1, rows := (newId, v) :: db.rows })

/-- Row-level merge performed by an update: every field of the update values
overwrites the old row, except that a timestamp key absent from the update
values (`none`) leaves the stored timestamp in place — `store` only puts
`created_at` or `updated_at` into `values` in the corresponding branch. -/
def updateRow {D : Type} (old new : PValues D) : PValues D :=
  { new with
    created_at := new.created_at.orElse fun _ => old.created_at
    updated_at := new.updated_at.orElse fun _ => old.updated_at }

/-- Modelled from the spec: `po.Policy.update(context, id, values)` updates
the record stored under `id` with the given values. -/
def db_policy_update {D : Type} (db : DBState D) (i : String) (v : PValues D) :
    DBState D :=
  { db with rows := db.rows.map fun kv => if kv.1 = i then (kv.1, updateRow kv.2 v) else kv }

/-- Modelled from the spec: `po.Policy.get(context, policy_id, ...) ->
record | None`. -/
def db_policy_get {D : Type} (db : DBState D) (i : String) :
    Option (String × PValues D) :=
  (List.lookup i db.rows).map fun v => (i, v)

/-- The values dict built by `Policy.store` (base.py lines 172-180). -/
def storeValues {D : Type} (p : PolicyInst D) : PValues D :=
  { name := p.name
    type := p.type
    user := p.user
    project := p.project
    domain := p.domain
    spec := p.spec
    data := p.data }

/-- Embedding of `Policy.store` (base.py lines 168-192): with an existing `id`, stamps
`updated_at` and issues an update against that id; with no `id`, stamps
`created_at`, creates a new record and captures its assigned id.  Returns
the id together with the mutated instance and the new store state. -/
def store {D : Type} (now : Nat) (p : PolicyInst D) (db : DBState D) :
    String × PolicyInst D × DBState D :=
  let values := storeValues p
  match p.id with
  | some i =>
    let p' := { p with updated_at := some now }
    let db' := db_policy_update db i { values with updated_at := some now }
    (i, p', db')
  | none =>
    let created := db_policy_create db { values with created_at := some now }
    let p' := { p with created_at := some now, id := some created.1.1 }
    (created.1.1, p', created.2)

/-- Embedding of `Policy._from_object` (base.py lines 111-130): rebuilds an instance from
a persisted record, passing the record's scalar fields as keyword
overrides. -/
def from_object {D : Type} (emptyData : D) (r : String × PValues D) : PolicyInst D :=
  policy_init emptyData r.2.name r.2.spec
    { id := some r.1
      type := some r.2.type
      user := r.2.user
      project := r.2.project
      domain := r.2.domain
      created_at := r.2.created_at
      updated_at := r.2.updated_at
      data := some r.2.data }

/-- The exceptions surfaced by the excerpted code paths. -/
inductive PolicyErr where
  | PolicyNotFound (policy : String)
  | TrustNotFound (trustor : String)
deriving DecidableEq, Repr

/-- Embedding of `Policy.load` (base.py lines 132-150): when no record is supplied, asks
the entity store for one and raises `PolicyNotFound` if the store returns
none; then reconstructs an instance via `_from_object`. -/
def load {D : Type} (emptyData : D) (db : DBState D) (policy_id : String)
    (db_policy : Option (String × PValues D)) : Except PolicyErr (PolicyInst D) :=
  match db_policy with
  | some r => Except.ok (from_object emptyData r)
  | none =>
    match db_policy_get db policy_id with
    | none => Except.error (PolicyErr.PolicyNotFound policy_id)
    | some r => Except.ok (from_object emptyData r)

/-- The ambient service credentials consumed by `_build_conn_params`;
`.get` on the dict yields `Option`. -/
structure ServiceCreds where
  username : Option String
  password : Option String
  auth_url : Option String
  user_domain_name : Option String
deriving DecidableEq, Repr

/-- Modelled from the spec: a credential record of the external credential
store (`senlin.objects.credential`, not part of the excerpt); `trust` models
`cred.cred['openstack']['trust']`. -/
structure Credential where
  trust : String
deriving DecidableEq, Repr

/-- Modelled from the spec: the external credential store, keyed by
`(user, project)`. -/
abbrev CredStore := List ((String × String) × Credential)

/-- The outbound-credential mapping assembled by `_build_conn_params`. -/
structure ConnParams where
  username : Option String
  password : Option String
  auth_url : Option String
  user_domain_name : Option String
  trust_id : String
deriving DecidableEq, Repr

/-- Embedding of `Policy._build_conn_params` (base.py lines 279-298): combines service
credentials with the trust looked up for `(cluster.user, cluster.project)`;
raises `TrustNotFound` when no credential record exists for that pair. -/
def build_conn_params (svc : ServiceCreds) (creds : CredStore) (cluster : Cluster) :
    Except PolicyErr ConnParams :=
  match List.lookup (cluster.user, cluster.project) creds with
  | none => Except.error (PolicyErr.TrustNotFound cluster.user)
  | some cred =>
    Except.ok
      { username := svc.username
        password := svc.password
        auth_url := svc.auth_url
        user_domain_name := svc.user_domain_name
        trust_id := cred.trust }

/-! Theorems about the embedded operations. -/

/-- C1 counterexample: with the base-class default `PROFILE_TYPE = 'ANY'` (the
*string*, base.py line 35) and a cluster of profile type `server`, `attach`
does not return `(true, None)`: the universal-applicability test compares
against the *list* `['ANY']`, which the string fails, and the subsequent
substring membership test also fails. -/
theorem attach_base_default_not_universal :
    attach (ProfileTypeDecl.str "ANY") ⟨"u1", "p1", "server"⟩ ≠ (true, none) := by
  decide

/-- C1 (amended): for every policy whose kind declares `PROFILE_TYPE` as the
list `['ANY']` — the shape concrete kinds use to declare universal
applicability — `attach(cluster)` returns `(true, None)` for every cluster,
regardless of the cluster's profile type.  The base-class default, the
string `'ANY'`, does not trigger this unconditional branch. -/
theorem attach_any_universal (cluster : Cluster) :
    attach (ProfileTypeDecl.list ["ANY"]) cluster = (true, none) := by
  simp [attach]

/-- C7: for every policy whose kind declares a restricted `PROFILE_TYPE` list
(not the universal `['ANY']`) and every cluster whose profile type is not a
member of that list, `attach` returns the soft-failure value
`(false, "Policy not applicable on profile type: <profile-type>")`. -/
theorem attach_mismatch_soft_failure (tys : List String) (cluster : Cluster)
    (hne : tys ≠ ["ANY"]) (hmem : cluster.profile_type ∉ tys) :
    attach (ProfileTypeDecl.list tys) cluster =
      (false, some ("Policy not applicable on profile type: " ++ cluster.profile_type)) := by
  have h1 : ProfileTypeDecl.list tys ≠ ProfileTypeDecl.list ["ANY"] := by
    intro h
    exact hne (ProfileTypeDecl.list.inj h)
  have h2 : pyIn cluster.profile_type (ProfileTypeDecl.list tys) = false := by
    simp only [pyIn]
    simpa using hmem
  simp [attach, h1, h2]

/-- C7 witness: the spec's example scenario — `PROFILE_TYPE = {"server"}`,
cluster profile type `"container"`. -/
theorem attach_mismatch_soft_failure_witness :
    attach (ProfileTypeDecl.list ["server"]) ⟨"u1", "p1", "container"⟩ =
      (false, some "Policy not applicable on profile type: container") := by
  have h := attach_mismatch_soft_failure ["server"] ⟨"u1", "p1", "container"⟩
    (by decide) (by decide)
  exact h.trans (by decide)

/-- C6: `need_check` returns `true` when the kind declares no `TARGET` set;
when a `TARGET` set is declared, it returns `true` exactly when
`(target, action.action)` is a member of that set. -/
theorem need_check_dispatch (target actionName : String) :
    need_check none target actionName = true ∧
    ∀ tgts : List (String × String),
      (need_check (some tgts) target actionName = true ↔ (target, actionName) ∈ tgts) := by
  refine ⟨rfl, fun tgts => ?_⟩
  by_cases h : (target, actionName) ∈ tgts <;> simp [need_check, h]

/-- C10: a kind that defines `TARGET` as the empty collection gets `false`
from `need_check` for every target and action; only an undefined or `None`
`TARGET` is default-permissive, since any declared `TARGET` list answers
`true` only on its members. -/
theorem need_check_empty_target (target actionName : String) :
    need_check (some []) target actionName = false ∧
    need_check none target actionName = true ∧
    ∀ tgts : List (String × String),
      need_check (some tgts) target actionName = true → (target, actionName) ∈ tgts := by
  refine ⟨rfl, rfl, fun tgts h => ?_⟩
  by_cases hm : (target, actionName) ∈ tgts
  · exact hm
  · simp [need_check, hm] at h

/-- C2: extracting right after building, with the same class name and the
same `VERSION`, returns the payload unchanged. -/
theorem policy_data_roundtrip {V : Type} (clsname VERSION : String) (payload : V) :
    extract_policy_data clsname VERSION (build_policy_data clsname VERSION payload) =
      some payload := by
  simp [extract_policy_data, build_policy_data, List.lookup]

/-- C3: `_extract_policy_data` returns `None` whenever the envelope has no
entry under the kind's class name, or has one whose stored `version` tag is
not exactly the kind's current `VERSION` (including an absent tag); when the
entry is present with a matching version it returns the entry's stored
payload (`data.get('data', None)`). -/
theorem extract_policy_data_cases {V : Type} (clsname VERSION : String)
    (envelope : PolicyData V) :
    (List.lookup clsname envelope = none →
      extract_policy_data clsname VERSION envelope = none) ∧
    (∀ entry, List.lookup clsname envelope = some entry →
      entry.version ≠ some VERSION →
      extract_policy_data clsname VERSION envelope = none) ∧
    (∀ entry, List.lookup clsname envelope = some entry →
      entry.version = some VERSION →
      extract_policy_data clsname VERSION envelope = entry.data) := by
  refine ⟨fun h => ?_, fun entry h hv => ?_, fun entry h hv => ?_⟩
  · simp [extract_policy_data, h]
  · simp only [extract_policy_data, h]
    cases hev : entry.version with
    | none => rfl
    | some v =>
      have hvne : v ≠ VERSION := by
        intro he
        exact hv (by rw [hev, he])
      simp [hvne]
  · simp only [extract_policy_data, h, hv]
    simp

/-- C3 witness: a stale envelope (version `2.0` against current `1.0`)
yields `none`; the same envelope read at matching version `2.0` yields the
stored payload; an envelope without the kind's key yields `none`. -/
theorem extract_policy_data_cases_witness :
    extract_policy_data "ScalingPolicy" "1.0"
      [("ScalingPolicy", ({ version := some "2.0", data := some 120 } : DataEntry Nat))] =
      none ∧
    extract_policy_data "ScalingPolicy" "2.0"
      [("ScalingPolicy", ({ version := some "2.0", data := some 120 } : DataEntry Nat))] =
      some 120 ∧
    extract_policy_data "ScalingPolicy" "1.0" ([] : PolicyData Nat) = none := by
  refine ⟨?_, ?_, ?_⟩
  · exact (extract_policy_data_cases "ScalingPolicy" "1.0" _).2.1
      { version := some "2.0", data := some 120 } (by decide) (by decide)
  · exact (extract_policy_data_cases "ScalingPolicy" "2.0" _).2.2
      { version := some "2.0", data := some 120 } (by decide) rfl
  · exact (extract_policy_data_cases "ScalingPolicy" "1.0" _).1 rfl

/-- C9: an explicitly supplied `type` keyword argument takes precedence over
the composite `"<type>-<version>"` key computed from the spec, and
`_from_object` passes the persisted record's `type`, so a rehydrated
policy's `type` equals the stored value even when it differs from the key
derivable from the stored spec. -/
theorem type_kwarg_precedence {D : Type} (emptyData : D) (name : String)
    (spec : SpecDecl) :
    (∀ (kw : InitKwargs D) (t : String), kw.type = some t →
      (policy_init emptyData name spec kw).type = t) ∧
    (∀ r : String × PValues D, (from_object emptyData r).type = r.2.type) := by
  refine ⟨fun kw t ht => ?_, fun r => ?_⟩
  · simp [policy_init, ht]
  · simp [from_object, policy_init]

/-- C9 witness: a supplied `type` of `"stored-type"` wins over the composite
key `"scaling-1.0"` computed from the spec, both in direct construction and
through `_from_object`. -/
theorem type_kwarg_precedence_witness :
    (policy_init (0 : Nat) "p1" ⟨"scaling", "1.0"⟩ { type := some "stored-type" }).type =
      "stored-type" ∧
    (from_object (0 : Nat) ("pid-1",
      { name := "p1", type := "stored-type", user := none, project := none,
        domain := none, spec := ⟨"scaling", "1.0"⟩, data := 3 })).type =
      "stored-type" :=
  ⟨(type_kwarg_precedence 0 "p1" ⟨"scaling", "1.0"⟩).1 _ "stored-type" rfl,
   (type_kwarg_precedence 0 "p1" ⟨"scaling", "1.0"⟩).2 _⟩

/-- C4: `store` on an instance with no `id` stamps `created_at` with the
current time, creates a record in the entity store, assigns the created
record's non-empty id to the instance and returns it; on an instance whose
`id` is already set it stamps `updated_at`, issues an update against that
id, leaves `id` unchanged and returns the same id. -/
theorem store_create_or_update {D : Type} (now : Nat) (p : PolicyInst D)
    (db : DBState D) :
    (p.id = none →
      (store now p db).2.1.id = some (store now p db).1 ∧
      (store now p db).1 ≠ "" ∧
      (store now p db).2.1.created_at = some now ∧
      List.lookup (store now p db).1 (store now p db).2.2.rows =
        some { storeValues p with created_at := some now }) ∧
    (∀ i, p.id = some i →
      (store now p db).1 = i ∧
      (store now p db).2.1.id = some i ∧
      (store now p db).2.1.updated_at = some now ∧
      (store now p db).2.2 =
        db_policy_update db i { storeValues p with updated_at := some now }) := by
  refine ⟨fun h => ?_, fun i h => ?_⟩
  · simp only [store, h, db_policy_create]
    refine ⟨trivial, ?_, trivial, ?_⟩
    · intro he
      have hlen := congrArg String.length he
      rw [String.length_append] at hlen
      have h7 : ("policy-" : String).length = 7 := by decide
      have h0 : ("" : String).length = 0 := by decide
      rw [h7, h0] at hlen
      omega
    · simp [List.lookup]
  · simp only [store, h]
    exact ⟨trivial, trivial, trivial, trivial⟩

/-- Example spec declaration used by the concrete witnesses. -/
def egSpec : SpecDecl := ⟨"scaling", "1.0"⟩

/-- Example freshly constructed policy instance (no `id` yet). -/
def egPolicyFresh : PolicyInst Nat :=
  { name := "p1", spec := egSpec, id := none, type := "scaling-1.0",
    user := some "u1", project := some "pr1", domain := none, data := 7,
    created_at := none, updated_at := none, singleton := true }

/-- Example policy instance that has already been persisted. -/
def egPolicyStored : PolicyInst Nat :=
  { egPolicyFresh with id := some "policy-0" }

/-- Example entity-store state holding the persisted record. -/
def egDB : DBState Nat := ⟨1, [("policy-0", storeValues egPolicyFresh)]⟩

/-- C4 witness: storing the fresh instance assigns and returns a non-empty
id; storing the already-persisted instance returns the same id and stamps
`updated_at`. -/
theorem store_create_or_update_witness :
    ((store 5 egPolicyFresh ⟨0, []⟩).2.1.id = some (store 5 egPolicyFresh ⟨0, []⟩).1 ∧
      (store 5 egPolicyFresh ⟨0, []⟩).1 ≠ "") ∧
    ((store 9 egPolicyStored egDB).1 = "policy-0" ∧
      (store 9 egPolicyStored egDB).2.1.updated_at = some 9) := by
  refine ⟨?_, ?_⟩
  · have h := (store_create_or_update 5 egPolicyFresh ⟨0, []⟩).1 rfl
    exact ⟨h.1, h.2.1⟩
  · have h := (store_create_or_update 9 egPolicyStored egDB).2 "policy-0" rfl
    exact ⟨h.1, h.2.2.1⟩

/-- C5: `load` without a supplied record raises `PolicyNotFound` exactly when
the entity store returns no record for the identifier; when the store
returns a record, `load` returns the instance reconstructed from it via
`_from_object` (so it never returns a partially-populated instance). -/
theorem load_not_found_or_reconstructed {D : Type} (emptyData : D)
    (db : DBState D) (pid : String) :
    (db_policy_get db pid = none →
      load emptyData db pid none = Except.error (PolicyErr.PolicyNotFound pid)) ∧
    (∀ r, db_policy_get db pid = some r →
      load emptyData db pid none = Except.ok (from_object emptyData r)) := by
  refine ⟨fun h => ?_, fun r h => ?_⟩ <;> simp [load, h]

/-- C5 witness: loading a missing identifier from an empty store fails with
`PolicyNotFound "missing"`; loading `"policy-0"` from the example store
returns the reconstructed instance. -/
theorem load_not_found_or_reconstructed_witness :
    load (0 : Nat) ⟨0, []⟩ "missing" none =
      Except.error (PolicyErr.PolicyNotFound "missing") ∧
    load (0 : Nat) egDB "policy-0" none =
      Except.ok (from_object 0 ("policy-0", storeValues egPolicyFresh)) :=
  ⟨(load_not_found_or_reconstructed 0 ⟨0, []⟩ "missing").1 rfl,
   (load_not_found_or_reconstructed 0 egDB "policy-0").2
     ("policy-0", storeValues egPolicyFresh) rfl⟩

/-- C8: `_build_conn_params` raises `TrustNotFound` exactly when the
credential store has no record for `(cluster.user, cluster.project)`;
otherwise it returns the service credentials' username, password, auth_url
and user_domain_name together with `trust_id` taken from the credential
record's trust. -/
theorem build_conn_params_trust (svc : ServiceCreds) (creds : CredStore)
    (cluster : Cluster) :
    (build_conn_params svc creds cluster =
        Except.error (PolicyErr.TrustNotFound cluster.user) ↔
      List.lookup (cluster.user, cluster.project) creds = none) ∧
    (∀ cred, List.lookup (cluster.user, cluster.project) creds = some cred →
      build_conn_params svc creds cluster = Except.ok
        { username := svc.username, password := svc.password,
          auth_url := svc.auth_url, user_domain_name := svc.user_domain_name,
          trust_id := cred.trust }) := by
  refine ⟨⟨fun h => ?_, fun h => by simp [build_conn_params, h]⟩,
    fun cred h => by simp [build_conn_params, h]⟩
  cases hl : List.lookup (cluster.user, cluster.project) creds with
  | none => rfl
  | some c => simp [build_conn_params, hl] at h

/-- C8 witness: with an empty credential store the call fails with
`TrustNotFound "u1"`; with a record for `("u1", "pr1")` it returns the
service credentials plus that record's trust id. -/
theorem build_conn_params_trust_witness :
    build_conn_params ⟨some "svc", some "pw", some "url", some "dom"⟩ []
        ⟨"u1", "pr1", "server"⟩ =
      Except.error (PolicyErr.TrustNotFound "u1") ∧
    build_conn_params ⟨some "svc", some "pw", some "url", some "dom"⟩
        [(("u1", "pr1"), ⟨"trust-1"⟩)] ⟨"u1", "pr1", "server"⟩ =
      Except.ok ⟨some "svc", some "pw", some "url", some "dom", "trust-1"⟩ :=
  ⟨(build_conn_params_trust _ _ _).1.2 rfl,
   (build_conn_params_trust _ _ _).2 ⟨"trust-1"⟩ rfl⟩

/-- C1 (amended) witness: the universal list `['ANY']` admits a cluster of
profile type `"container"`. -/
theorem attach_any_universal_witness :
    attach (ProfileTypeDecl.list ["ANY"]) ⟨"u1", "p1", "container"⟩ = (true, none) :=
  attach_any_universal ⟨"u1", "p1", "container"⟩

/-- C2 witness: the spec's example payload round-trips for kind
`ScalingPolicy` at `VERSION = "1.0"`. -/
theorem policy_data_roundtrip_witness :
    extract_policy_data "ScalingPolicy" "1.0"
      (build_policy_data "ScalingPolicy" "1.0" (120 : Nat)) = some 120 :=
  policy_data_roundtrip "ScalingPolicy" "1.0" 120

/-- C6 witness: with no `TARGET` every action is relevant; with a declared
`TARGET` the membership test decides. -/
theorem need_check_dispatch_witness :
    need_check none "BEFORE" "CLUSTER_SCALE_IN" = true ∧
    (need_check (some [("BEFORE", "CLUSTER_SCALE_IN")]) "BEFORE" "CLUSTER_SCALE_IN" =
        true ↔
      ("BEFORE", "CLUSTER_SCALE_IN") ∈ [("BEFORE", "CLUSTER_SCALE_IN")]) :=
  ⟨(need_check_dispatch "BEFORE" "CLUSTER_SCALE_IN").1,
   (need_check_dispatch "BEFORE" "CLUSTER_SCALE_IN").2 _⟩

/-- C10 witness: an empty declared `TARGET` rejects a concrete action, and a
declared singleton `TARGET` answering `true` forces membership. -/
theorem need_check_empty_target_witness :
    need_check (some []) "BEFORE" "CLUSTER_SCALE_IN" = false ∧
    ("BEFORE", "CLUSTER_SCALE_IN") ∈ [("BEFORE", "CLUSTER_SCALE_IN")] :=
  ⟨(need_check_empty_target "BEFORE" "CLUSTER_SCALE_IN").1,
   (need_check_empty_target "BEFORE" "CLUSTER_SCALE_IN").2.2
     [("BEFORE", "CLUSTER_SCALE_IN")] (by decide)⟩

end Senlin
